import Mathlib

/-!
# twitch-recorder: poll loop, live-status check, token refresh, manifest resolution

A shallow embedding of `main.go` and `twitch.go`.

* Library calls whose results come from outside the program (`http.Client.Do`,
  `http.Client.PostForm`, `io.ReadAll`, `json.Unmarshal`, `exec.Cmd.Output`, the
  iteration order of a Go map) are fields of `Env`; every theorem is stated for
  an arbitrary `Env`.
* A Go call either returns, or ends the process through `log.Fatal`
  (`os.Exit(1)`), or panics on a nil dereference: `Outcome`.
* Effects are recorded in a trace of `Event`s, oldest first.
-/

namespace TwitchRecorder

/-! ## main.go -/

/-- Go struct `Config` of `main.go`. -/
structure Config where
  ClientID : String
  ClientSecret : String
  DownloadFolder : String
  PreferredQuality : String
  Streamer : String

/-- What one iteration of the `for` loop of `main` receives from outside:
the value returned by `twitchClient.IsLive`, and whether a `StartRecording`
issued in this iteration manages to spawn its capture process. The call
`recorder.StartRecording(...)` is an expression statement in `main`, so the
second component cannot reach the loop's variables. -/
structure Tick where
  isLive : Bool
  spawnOk : Bool

/-- Calls the loop of `main` issues on the recorder; a start carries the
arguments passed and the spawn outcome of that call. -/
inductive Action where
  | StartRecording (streamer folder quality : String) (spawned : Bool)
  | StopRecording

/-- Body of the `for` loop of `main` (lines 62-72), as a function of the
variable `isRecording`: the new value of `isRecording` and the recorder call
issued, if any. -/
def pollTick (config : Config) (downloadFolder : String) (isRecording : Bool)
    (tk : Tick) : Bool × Option Action :=
  if tk.isLive && !isRecording then
    (true, some (Action.StartRecording config.Streamer downloadFolder
      config.PreferredQuality tk.spawnOk))
  else if !tk.isLive && isRecording then
    (false, some Action.StopRecording)
  else
    (isRecording, none)

/-- The `for` loop of `main` run over a finite list of ticks: final value of
`isRecording` and, tick by tick, the recorder call issued. -/
def pollLoop (config : Config) (downloadFolder : String) :
    Bool → List Tick → Bool × List (Option Action)
  | isRecording, [] => (isRecording, [])
  | isRecording, tk :: rest =>
    let r := pollTick config downloadFolder isRecording tk
    let rs := pollLoop config downloadFolder r.1 rest
    (rs.1, r.2 :: rs.2)

/-- Function `main` from the loop on: `isRecording` starts as `false` (line 40). -/
def mainLoop (config : Config) (downloadFolder : String) (ticks : List Tick) :
    Bool × List (Option Action) :=
  pollLoop config downloadFolder false ticks

/-- Is the action a `StartRecording` call. -/
def Action.isStart : Action → Bool
  | Action.StartRecording _ _ _ _ => true
  | Action.StopRecording => false

/-- Is the action a `StopRecording` call. -/
def Action.isStop : Action → Bool
  | Action.StartRecording _ _ _ _ => false
  | Action.StopRecording => true

/-- Number of `StartRecording` calls in a per-tick record. -/
def startCount : List (Option Action) → Nat
  | [] => 0
  | none :: rest => startCount rest
  | some a :: rest => (if a.isStart then 1 else 0) + startCount rest

/-- Number of `StopRecording` calls in a per-tick record. -/
def stopCount : List (Option Action) → Nat
  | [] => 0
  | none :: rest => stopCount rest
  | some a :: rest => (if a.isStop then 1 else 0) + stopCount rest

/-- Specification side: number of offline-to-live transitions in a sequence
of observations, the channel counting as `prev` before the first one. -/
def risingEdges : Bool → List Bool → Nat
  | _, [] => 0
  | prev, o :: rest => (if !prev && o then 1 else 0) + risingEdges o rest

/-- Specification side: number of live-to-offline transitions in a sequence
of observations, the channel counting as `prev` before the first one. -/
def fallingEdges : Bool → List Bool → Nat
  | _, [] => 0
  | prev, o :: rest => (if prev && !o then 1 else 0) + fallingEdges o rest

/-- Specification side: a per-tick record of recorder calls in which no
`StartRecording` is issued while a start is outstanding and no
`StopRecording` is issued while none is. -/
def Alternates : Bool → List (Option Action) → Prop
  | _, [] => True
  | outstanding, none :: rest => Alternates outstanding rest
  | outstanding, some (Action.StartRecording _ _ _ _) :: rest =>
    outstanding = false ∧ Alternates true rest
  | outstanding, some Action.StopRecording :: rest =>
    outstanding = true ∧ Alternates false rest

/-- The kind of call issued at each tick, arguments dropped:
`some true` for a start, `some false` for a stop. -/
def kinds (as : List (Option Action)) : List (Option Bool) :=
  as.map (fun a => a.map Action.isStart)

/-! ## twitch.go -/

/-- Token endpoint, constant `TOKEN_API`. -/
def TOKEN_API : String := "https://id.twitch.tv/oauth2/token"

/-- Stream-listing endpoint, constant `STREAM_API`. -/
def STREAM_API : String := "https://api.twitch.tv/helix/streams?user_login="

/-- Constant `http.StatusUnauthorized`. -/
def StatusUnauthorized : Nat := 401

/-- A Go map with string keys, as the list of its entries; the keys of a
map are pairwise distinct. -/
abbrev GoMap (V : Type) : Type := List (String × V)

/-- Values `json.Unmarshal` stores in an `interface{}`: `nil`, `bool`,
`float64` (kept as its bit pattern), `string`, `[]interface{}` and
`map[string]interface{}`. -/
inductive JValue where
  | null
  | bool (b : Bool)
  | float64 (bits : Nat)
  | string (s : String)
  | array (elems : List JValue)
  | object (fields : List (String × JValue))

/-- Go map index expression `m[key]` on a `map[string]interface{}`: the zero
value `nil` when the key is absent (also on a nil map). -/
def GoMap.index (m : GoMap JValue) (key : String) : JValue :=
  match m.lookup key with
  | some v => v
  | none => JValue.null

/-- Go type assertion `v.(string)` in its two-result form: the zero value
`""` and `false` when `v` does not hold a string. -/
def JValue.assertString : JValue → String × Bool
  | JValue.string s => (s, true)
  | _ => ("", false)

/-- Go type assertion `v.([]interface{})` in its two-result form: the nil
slice and `false` when `v` does not hold an array. -/
def JValue.assertArray : JValue → List JValue × Bool
  | JValue.array xs => (xs, true)
  | _ => ([], false)

/-- Go struct `TwitchClient`; the `client *http.Client` field is
represented by the `Env` the methods run in. -/
structure TwitchClient where
  ClientID : String
  ClientSecret : String
  AccessToken : String

/-- An `*http.Request` as far as the program sets it. -/
structure Request where
  Method : String
  URL : String
  Header : GoMap String

/-- An `*http.Response` as far as the program reads it: the status code and
what `io.ReadAll(resp.Body)` gives, the bytes or an error. -/
structure Response where
  StatusCode : Nat
  Body : Except String String

/-- Stream descriptor, the element type of `TwitchStreams.Streams`. -/
structure StreamDesc where
  Type_ : String
  URL : String
  Headers : GoMap String
  Master : String

/-- Field `Metadata` of `TwitchStreams`. -/
structure StreamMetadata where
  ID : String
  Author : String
  Category : String
  Title : String

/-- Go struct `TwitchStreams`. -/
structure TwitchStreams where
  Plugin : String
  Metadata : StreamMetadata
  Streams : GoMap StreamDesc

/-- How a Go call ends: it returns, the process exits through `log.Fatal`
(`os.Exit(1)`), or it panics. -/
inductive Outcome (α : Type) where
  | returned (a : α)
  | exited (code : Nat)
  | panicked
  deriving DecidableEq

/-- Observable effects, recorded oldest first. -/
inductive Event where
  | log (msg : String)
  | httpDo (req : Request)
  | httpPostForm (url : String) (form : GoMap String)
  | exec (argv : List String)

/-- The outside world the client talks to.

* `NewRequestErr method url`: the error of `http.NewRequest`, if any;
* `Do req`: result of `t.client.Do(req)`, a response or an error;
* `PostForm url form`: the pair `(resp, err)` of `t.client.PostForm`, where
  `none` is Go's `nil`;
* `UnmarshalMap b`: `json.Unmarshal(b, &m)` for `m map[string]interface{}`;
* `UnmarshalStreams b`: `json.Unmarshal(b, &s)` for `s TwitchStreams`;
* `Output argv`: the pair `(output, err)` of `exec.Command(...).Output()`;
* `RangeOrder keys`: the order in which a `range` over a map with these keys
  visits them. -/
structure Env where
  NewRequestErr : String → String → Option String
  Do : Request → Except String Response
  PostForm : String → GoMap String → Option Response × Option String
  UnmarshalMap : String → Except String (GoMap JValue)
  UnmarshalStreams : String → Except String TwitchStreams
  Output : List String → String × Option String
  RangeOrder : List String → List String

/-- Method `generateHeaders` (lines 42-48). -/
def generateHeaders (t : TwitchClient) : GoMap String :=
  [("Client-ID", t.ClientID), ("Authorization", "Bearer " ++ t.AccessToken)]

/-- Setting a key of a string-keyed map: `url.Values.Set`, `Header.Set`. -/
def GoMap.set (m : GoMap String) (key value : String) : GoMap String :=
  m.filter (fun kv => kv.1 != key) ++ [(key, value)]

/-- The form `body` built at the start of `RefreshAccessToken`
(lines 51-54). -/
def tokenForm (t : TwitchClient) : GoMap String :=
  ((GoMap.set [] "client_id" t.ClientID).set "client_secret" t.ClientSecret).set
    "grant_type" "client_credentials"

/-- Method `RefreshAccessToken` (lines 50-85): outcome, client afterwards,
trace afterwards. -/
def RefreshAccessToken (env : Env) (t : TwitchClient) (tr : List Event) :
    Outcome String × TwitchClient × List Event :=
  let body : GoMap String := tokenForm t
  let tr := tr ++ [Event.httpPostForm TOKEN_API body]
  match env.PostForm TOKEN_API body with
  | (resp, err) =>
    let tr := match err with
      | some e => tr ++ [Event.log ("Could not request a new access token! Error: " ++ e)]
      | none => tr
    match resp with
    | none => (Outcome.panicked, t, tr)
    | some resp =>
      match resp.Body with
      | Except.error e =>
        (Outcome.exited 1, t, tr ++ [Event.log ("Error reading access token response:" ++ e)])
      | Except.ok respBody =>
        match env.UnmarshalMap respBody with
        | Except.error e =>
          (Outcome.exited 1, t,
            tr ++ [Event.log ("Error parsing access token response:" ++ e)])
        | Except.ok responseMap =>
          let r := (responseMap.index "access_token").assertString
          let accessToken := r.1
          let tr := if !r.2 then tr ++ [Event.log "Access token not found in response!"] else tr
          let t := { t with AccessToken := accessToken }
          let tr :=
            if accessToken != "" then
              tr ++ [Event.log ("Access token refreshed: " ++ t.AccessToken)]
            else
              tr ++ [Event.log "Error! Access token is empty string."]
          (Outcome.returned accessToken, t, tr)

/-- Function `NewTwitch` (lines 25-33): the error result is always `nil` and
is left out. -/
def NewTwitch (env : Env) (clientID clientSecret : String) (tr : List Event) :
    Outcome TwitchClient × List Event :=
  let t : TwitchClient :=
    { ClientID := clientID, ClientSecret := clientSecret, AccessToken := "" }
  match RefreshAccessToken env t tr with
  | (Outcome.returned tok, t, tr) => (Outcome.returned { t with AccessToken := tok }, tr)
  | (Outcome.exited c, _, tr) => (Outcome.exited c, tr)
  | (Outcome.panicked, _, tr) => (Outcome.panicked, tr)

/-- The request `IsLive` sends: `http.NewRequest("GET", ...)` with the
headers of `generateHeaders` set in the order the `range` visits them
(lines 88-98). -/
def listingRequest (env : Env) (t : TwitchClient) (streamerName : String) : Request :=
  let headers := generateHeaders t
  let req : Request :=
    { Method := "GET", URL := STREAM_API ++ streamerName, Header := [] }
  (env.RangeOrder (headers.map Prod.fst)).foldl
    (fun (r : Request) key =>
      match headers.lookup key with
      | some value => { r with Header := r.Header.set key value }
      | none => r) req

/-- Method `IsLive` (lines 87-133): outcome, client afterwards, trace
afterwards. -/
def IsLive (env : Env) (t : TwitchClient) (streamerName : String) (tr : List Event) :
    Outcome Bool × TwitchClient × List Event :=
  match env.NewRequestErr "GET" (STREAM_API ++ streamerName) with
  | some e =>
    (Outcome.returned false, t,
      tr ++ [Event.log ("Error creating request to check live status: " ++ e)])
  | none =>
    let req := listingRequest env t streamerName
    let tr := tr ++ [Event.httpDo req]
    match env.Do req with
    | Except.error e =>
      (Outcome.returned false, t,
        tr ++ [Event.log ("Error sending request for live status: " ++ e)])
    | Except.ok resp =>
      if resp.StatusCode = StatusUnauthorized then
        let tr := tr ++ [Event.log "Status 401: Unauthorized"]
        match RefreshAccessToken env t tr with
        | (Outcome.returned _, t, tr) => (Outcome.returned false, t, tr)
        | (Outcome.exited c, t, tr) => (Outcome.exited c, t, tr)
        | (Outcome.panicked, t, tr) => (Outcome.panicked, t, tr)
      else
        match resp.Body with
        | Except.error e =>
          (Outcome.returned false, t,
            tr ++ [Event.log ("Error reading response for live status: " ++ e)])
        | Except.ok body =>
          match env.UnmarshalMap body with
          | Except.error e =>
            (Outcome.returned false, t,
              tr ++ [Event.log ("Error parsing live status response: " ++ e)])
          | Except.ok responseData =>
            let r := (responseData.index "data").assertArray
            if !r.2 then
              (Outcome.returned false, t,
                tr ++ [Event.log "Error parsing data field of live status response: <nil>"])
            else
              (Outcome.returned (decide (r.1.length > 0)), t, tr)

/-- Function `NewTwitchStreams` (lines 181-187): the pair
`(*TwitchStreams, error)` has exactly one non-nil component. -/
def NewTwitchStreams (env : Env) (data : String) : Except String TwitchStreams :=
  match env.UnmarshalStreams data with
  | Except.error err => Except.error err
  | Except.ok twitchStreams => Except.ok twitchStreams

/-- The slice `streamlinkCommand` of `GetAvailableStreams` (lines 136-140). -/
def streamlinkCommand (streamerName : String) : List String :=
  ["streamlink", "twitch.tv/" ++ streamerName, "--json"]

/-- Method `GetAvailableStreams` (lines 135-163): the returned pair
`([]string, error)`, a nil slice being `[]` and a nil error `none`, and the
trace afterwards. -/
def GetAvailableStreams (env : Env) (streamerName : String) (tr : List Event) :
    Outcome (List String × Option String) × List Event :=
  let streamlinkCommand := streamlinkCommand streamerName
  let commandString := " ".intercalate streamlinkCommand
  let tr := tr ++ [Event.log ("Executing command: " ++ commandString)]
  let tr := tr ++ [Event.exec streamlinkCommand]
  match env.Output streamlinkCommand with
  | (_, some err) =>
    (Outcome.exited 1, tr ++ [Event.log ("Failed to execute streamlink command:" ++ err)])
  | (output, none) =>
    match NewTwitchStreams env output with
    | Except.error err =>
      (Outcome.returned ([], some err),
        tr ++ [Event.log ("Failed to parse JSON data: " ++ err)])
    | Except.ok twitchStreams =>
      let availableQualities :=
        (env.RangeOrder (twitchStreams.Streams.map Prod.fst)).foldl
          (fun (acc : List String) quality => acc ++ [quality]) []
      (Outcome.returned (availableQualities, none), tr)

/-- Number of listing requests sent in a trace. -/
def listingRequests : List Event → Nat
  | [] => 0
  | Event.httpDo _ :: rest => 1 + listingRequests rest
  | _ :: rest => listingRequests rest

/-- Number of posts to the token endpoint in a trace. `RefreshAccessToken`
is the only function that posts there, once per invocation, before anything
that can end it: this counts its invocations. -/
def refreshCalls : List Event → Nat
  | [] => 0
  | Event.httpPostForm url _ :: rest => (if url = TOKEN_API then 1 else 0) + refreshCalls rest
  | _ :: rest => refreshCalls rest

/-- The value an outcome returned, if it returned. -/
def Outcome.get? {α : Type} : Outcome α → Option α
  | Outcome.returned a => some a
  | _ => none

/-- A run of the client: `NewTwitch` in `env0`, then one `RefreshAccessToken`
call in each of `envs` in turn (the world at the time of that call); it ends
at the first call that does not return. -/
def refreshSeq : List Env → TwitchClient → List Event → Outcome TwitchClient × List Event
  | [], t, tr => (Outcome.returned t, tr)
  | env :: rest, t, tr =>
    match RefreshAccessToken env t tr with
    | (Outcome.returned _, t, tr) => refreshSeq rest t tr
    | (Outcome.exited c, _, tr) => (Outcome.exited c, tr)
    | (Outcome.panicked, _, tr) => (Outcome.panicked, tr)

/-- Function `NewTwitch` followed by later refreshes. -/
def session (env0 : Env) (envs : List Env) (clientID clientSecret : String) :
    Outcome TwitchClient :=
  match NewTwitch env0 clientID clientSecret [] with
  | (Outcome.returned t, tr) => (refreshSeq envs t tr).1
  | (Outcome.exited c, _) => Outcome.exited c
  | (Outcome.panicked, _) => Outcome.panicked

/-! ## Specification side -/

/-- Specification side: the value of the `access_token` field of a decoded
token response when the field is present and is a string, the empty string
otherwise. -/
def specToken (m : GoMap JValue) : String :=
  match m.lookup "access_token" with
  | some (JValue.string s) => s
  | _ => ""

/-- Specification side: the string `access_token` carried by the response
the token endpoint of `env` gives to a client with these credentials, if it
carries one. -/
def carriedToken (env : Env) (clientID clientSecret : String) : Option String :=
  match (env.PostForm TOKEN_API
      (tokenForm { ClientID := clientID, ClientSecret := clientSecret, AccessToken := "" })).1 with
  | none => none
  | some resp =>
    match resp.Body with
    | Except.error _ => none
    | Except.ok body =>
      match env.UnmarshalMap body with
      | Except.error _ => none
      | Except.ok m =>
        match m.lookup "access_token" with
        | some (JValue.string s) => some s
        | _ => none

/-- Specification side: the token delivered by the most recent refresh whose
response carried a string `access_token`, the refreshes listed oldest
first. -/
def latestCarried (envs : List Env) (clientID clientSecret : String) : Option String :=
  (envs.reverse.filterMap (fun env => carriedToken env clientID clientSecret)).head?

/-- Specification side: the decoded listing body is an object whose `data`
field is an array with at least one element. -/
def dataNonEmpty (m : GoMap JValue) : Prop :=
  ∃ x xs, m.lookup "data" = some (JValue.array (x :: xs))

/-! ## Concrete inputs -/

/-- A configuration. -/
def demoConfig : Config :=
  { ClientID := "id", ClientSecret := "secret", DownloadFolder := "rec",
    PreferredQuality := "best", Streamer := "chan" }

/-- A client holding a token. -/
def demoClient : TwitchClient :=
  { ClientID := "id", ClientSecret := "secret", AccessToken := "old" }

/-- The listing body `{"data":[]}`. -/
def bodyDataEmpty : String := "\x7b\"data\":[]\x7d"

/-- The listing body `{"data":[{"id":"1"}]}`. -/
def bodyDataOne : String := "\x7b\"data\":[\x7b\"id\":\"1\"\x7d]\x7d"

/-- The token body `{"access_token":"abc123"}`. -/
def bodyToken : String := "\x7b\"access_token\":\"abc123\"\x7d"

/-- The token body `{}`. -/
def bodyNoToken : String := "\x7b\x7d"

/-- The manifest `{"streams":{"best":{},"720p":{}}}`. -/
def bodyManifest : String :=
  "\x7b\"streams\":\x7b\"best\":\x7b\x7d,\"720p\":\x7b\x7d\x7d\x7d"

/-- Result of `json.Unmarshal` into a `map[string]interface{}` on the bodies
above; an error everywhere else. -/
def demoUnmarshalMap (b : String) : Except String (GoMap JValue) :=
  if b = bodyDataEmpty then
    Except.ok [("data", JValue.array [])]
  else if b = bodyDataOne then
    Except.ok [("data", JValue.array [JValue.object [("id", JValue.string "1")]])]
  else if b = bodyToken then
    Except.ok [("access_token", JValue.string "abc123")]
  else if b = bodyNoToken then
    Except.ok []
  else
    Except.error "invalid character"

/-- Result of `json.Unmarshal` into a `TwitchStreams` on `bodyManifest`; an
error everywhere else. -/
def demoUnmarshalStreams (b : String) : Except String TwitchStreams :=
  if b = bodyManifest then
    Except.ok
      { Plugin := ""
        Metadata := { ID := "", Author := "", Category := "", Title := "" }
        Streams :=
          [("best", { Type_ := "", URL := "", Headers := [], Master := "" }),
           ("720p", { Type_ := "", URL := "", Headers := [], Master := "" })] }
  else
    Except.error "invalid character"

/-- A world in which the listing endpoint answers 200 with `listing`, the
token endpoint answers 200 with `token`, the capture tool prints `manifest`
and exits zero, and a `range` visits keys last to first. -/
def demoEnv (listing token manifest : String) : Env :=
  { NewRequestErr := fun _ _ => none
    Do := fun _ => Except.ok { StatusCode := 200, Body := Except.ok listing }
    PostForm := fun _ _ => (some { StatusCode := 200, Body := Except.ok token }, none)
    UnmarshalMap := demoUnmarshalMap
    UnmarshalStreams := demoUnmarshalStreams
    Output := fun _ => (manifest, none)
    RangeOrder := List.reverse }

/-- The world of `demoEnv`, except that the listing endpoint answers 401
with the body `listing`. -/
def demoEnv401 (listing token : String) : Env :=
  { demoEnv listing token "" with
    Do := fun _ => Except.ok { StatusCode := 401, Body := Except.ok listing } }

/-- The world of `demoEnv401`, except that reading the body of the token
response fails. -/
def demoEnv401ReadFails : Env :=
  { demoEnv401 "" "" with
    PostForm := fun _ _ =>
      (some { StatusCode := 200, Body := Except.error "unexpected EOF" }, none) }

/-- The world of `demoEnv`, except that the capture tool exits non-zero. -/
def demoEnvToolFails : Env :=
  { demoEnv "" "" "" with Output := fun _ => ("", some "exit status 1") }

/-! ## Poll loop: lemmas -/

theorem pollTick_fst (config : Config) (folder : String) (r : Bool) (tk : Tick) :
    (pollTick config folder r tk).1 = tk.isLive := by
  cases r <;> cases h : tk.isLive <;> simp [pollTick, h]

theorem pollTick_start (config : Config) (folder : String) (r : Bool) (tk : Tick) :
    startCount [(pollTick config folder r tk).2] = if !r && tk.isLive then 1 else 0 := by
  cases r <;> cases h : tk.isLive <;> simp [pollTick, h, startCount, Action.isStart]

theorem pollTick_stop (config : Config) (folder : String) (r : Bool) (tk : Tick) :
    stopCount [(pollTick config folder r tk).2] = if r && !tk.isLive then 1 else 0 := by
  cases r <;> cases h : tk.isLive <;> simp [pollTick, h, stopCount, Action.isStop]

theorem startCount_cons (a : Option Action) (as : List (Option Action)) :
    startCount (a :: as) = startCount [a] + startCount as := by
  cases a <;> simp [startCount]

theorem stopCount_cons (a : Option Action) (as : List (Option Action)) :
    stopCount (a :: as) = stopCount [a] + stopCount as := by
  cases a <;> simp [stopCount]

theorem pollLoop_cons (config : Config) (folder : String) (r : Bool) (tk : Tick)
    (rest : List Tick) :
    pollLoop config folder r (tk :: rest) =
      ((pollLoop config folder tk.isLive rest).1,
        (pollTick config folder r tk).2 :: (pollLoop config folder tk.isLive rest).2) := by
  simp [pollLoop, pollTick_fst]

theorem pollLoop_starts (config : Config) (folder : String) (ticks : List Tick) :
    ∀ r : Bool, startCount (pollLoop config folder r ticks).2 =
      risingEdges r (ticks.map Tick.isLive) := by
  induction ticks with
  | nil => intro r; simp [pollLoop, startCount, risingEdges]
  | cons tk rest ih =>
    intro r
    rw [pollLoop_cons]
    simp only [List.map_cons, risingEdges]
    rw [startCount_cons, pollTick_start, ih]

theorem pollLoop_stops (config : Config) (folder : String) (ticks : List Tick) :
    ∀ r : Bool, stopCount (pollLoop config folder r ticks).2 =
      fallingEdges r (ticks.map Tick.isLive) := by
  induction ticks with
  | nil => intro r; simp [pollLoop, stopCount, fallingEdges]
  | cons tk rest ih =>
    intro r
    rw [pollLoop_cons]
    simp only [List.map_cons, fallingEdges]
    rw [stopCount_cons, pollTick_stop, ih]

theorem pollLoop_balance (config : Config) (folder : String) (ticks : List Tick) :
    ∀ r : Bool, startCount (pollLoop config folder r ticks).2 + (if r then 1 else 0) =
      stopCount (pollLoop config folder r ticks).2 +
        (if (pollLoop config folder r ticks).1 then 1 else 0) := by
  induction ticks with
  | nil => intro r; simp [pollLoop, startCount, stopCount]
  | cons tk rest ih =>
    intro r
    rw [pollLoop_cons]
    simp only []
    rw [startCount_cons, stopCount_cons, pollTick_start, pollTick_stop]
    have h := ih tk.isLive
    cases r <;> cases hl : tk.isLive <;> simp [hl] at h ⊢ <;> omega

theorem pollLoop_alternates (config : Config) (folder : String) (ticks : List Tick) :
    ∀ r : Bool, Alternates r (pollLoop config folder r ticks).2 := by
  induction ticks with
  | nil => intro r; simp [pollLoop, Alternates]
  | cons tk rest ih =>
    intro r
    rw [pollLoop_cons]
    have h := ih tk.isLive
    cases r <;> cases hl : tk.isLive <;> simp [hl, pollTick, Alternates] at h ⊢ <;> exact h

theorem pollLoop_last (config : Config) (folder : String) (ticks : List Tick) :
    ∀ r : Bool, (pollLoop config folder r ticks).1 =
      ((ticks.map Tick.isLive).getLast?).getD r := by
  induction ticks with
  | nil => intro r; simp [pollLoop]
  | cons tk rest ih =>
    intro r
    rw [pollLoop_cons]
    simp only [ih, List.map_cons]
    cases rest with
    | nil => simp
    | cons tk2 rest2 =>
      simp only [List.map_cons, List.getLast?_cons_cons]
      cases h : (tk2.isLive :: List.map Tick.isLive rest2).getLast? with
      | none => simp at h
      | some x => simp


/-! ## Client: lemmas -/

theorem listingRequests_append (a b : List Event) :
    listingRequests (a ++ b) = listingRequests a + listingRequests b := by
  induction a with
  | nil => simp [listingRequests]
  | cons e rest ih => cases e <;> simp +arith [listingRequests, ih]

theorem refreshCalls_append (a b : List Event) :
    refreshCalls (a ++ b) = refreshCalls a + refreshCalls b := by
  induction a with
  | nil => simp [refreshCalls]
  | cons e rest ih => cases e <;> simp +arith [refreshCalls, ih]

theorem assertString_index (m : GoMap JValue) :
    ((m.index "access_token").assertString).1 = specToken m := by
  unfold GoMap.index specToken
  cases h : List.lookup "access_token" m with
  | none => simp [JValue.assertString]
  | some v => cases v <;> simp [JValue.assertString]

theorem refresh_returns (env : Env) (t : TwitchClient) (tr : List Event)
    (tresp : Response) (terr : Option String) (body : String) (m : GoMap JValue)
    (hpost : env.PostForm TOKEN_API (tokenForm t) = (some tresp, terr))
    (hbody : tresp.Body = Except.ok body) (hjson : env.UnmarshalMap body = Except.ok m) :
    (RefreshAccessToken env t tr).1 = Outcome.returned (specToken m) ∧
      (RefreshAccessToken env t tr).2.1 = { t with AccessToken := specToken m } := by
  simp only [RefreshAccessToken, hpost, hbody, hjson, assertString_index]
  simp

theorem refresh_trace (env : Env) (t : TwitchClient) (tr : List Event) :
    refreshCalls (RefreshAccessToken env t tr).2.2 = refreshCalls tr + 1 ∧
      listingRequests (RefreshAccessToken env t tr).2.2 = listingRequests tr := by
  rcases hpost : env.PostForm TOKEN_API (tokenForm t) with ⟨resp, err⟩
  simp only [RefreshAccessToken, hpost]
  cases resp with
  | none =>
    cases err <;>
      simp [refreshCalls_append, listingRequests_append, refreshCalls, listingRequests]
  | some resp =>
    cases hb : resp.Body with
    | error e =>
      cases err <;>
        simp [hb, refreshCalls_append, listingRequests_append, refreshCalls, listingRequests]
    | ok body =>
      cases hj : env.UnmarshalMap body with
      | error e =>
        cases err <;>
          simp [hb, hj, refreshCalls_append, listingRequests_append, refreshCalls,
            listingRequests]
      | ok m =>
        cases err <;>
          simp only [hb, hj] <;> split_ifs <;>
          simp [refreshCalls_append, listingRequests_append, refreshCalls, listingRequests]

theorem assertArray_index (m : GoMap JValue) :
    ((m.index "data").assertArray.2 = true ∧ (m.index "data").assertArray.1.length > 0) ↔
      dataNonEmpty m := by
  unfold GoMap.index dataNonEmpty
  cases h : List.lookup "data" m with
  | none => simp [JValue.assertArray]
  | some v =>
    cases v with
    | array xs => cases xs <;> simp [JValue.assertArray]
    | _ => simp [JValue.assertArray]

theorem isLive_not401 (env : Env) (t : TwitchClient) (name : String) (tr : List Event)
    (resp : Response)
    (hreq : env.NewRequestErr "GET" (STREAM_API ++ name) = none)
    (hdo : env.Do (listingRequest env t name) = Except.ok resp)
    (hstatus : resp.StatusCode ≠ StatusUnauthorized) :
    (IsLive env t name tr).1 =
      match resp.Body with
      | Except.error _ => Outcome.returned false
      | Except.ok body =>
        match env.UnmarshalMap body with
        | Except.error _ => Outcome.returned false
        | Except.ok m =>
          Outcome.returned ((m.index "data").assertArray.2 &&
            decide ((m.index "data").assertArray.1.length > 0)) := by
  simp only [IsLive, hreq, hdo, if_neg hstatus]
  cases hb : resp.Body with
  | error e => simp
  | ok body =>
    cases hj : env.UnmarshalMap body with
    | error e => simp [hj]
    | ok m =>
      cases h2 : (m.index "data").assertArray.2 <;> simp [hj, h2]

theorem isLive_401 (env : Env) (t : TwitchClient) (name : String) (tr : List Event)
    (resp : Response)
    (hreq : env.NewRequestErr "GET" (STREAM_API ++ name) = none)
    (hdo : env.Do (listingRequest env t name) = Except.ok resp)
    (h401 : resp.StatusCode = StatusUnauthorized) :
    IsLive env t name tr =
      match RefreshAccessToken env t
        (tr ++ [Event.httpDo (listingRequest env t name)] ++
          [Event.log "Status 401: Unauthorized"]) with
      | (Outcome.returned _, t, tr) => (Outcome.returned false, t, tr)
      | (Outcome.exited c, t, tr) => (Outcome.exited c, t, tr)
      | (Outcome.panicked, t, tr) => (Outcome.panicked, t, tr) := by
  simp only [IsLive, hreq, hdo, if_pos h401]

theorem tokenForm_credentials (t : TwitchClient) :
    tokenForm t =
      tokenForm { ClientID := t.ClientID, ClientSecret := t.ClientSecret, AccessToken := "" } :=
  rfl

theorem refresh_returned (env : Env) (t t2 : TwitchClient) (tr tr2 : List Event) (tok : String)
    (h : RefreshAccessToken env t tr = (Outcome.returned tok, t2, tr2)) :
    t2.ClientID = t.ClientID ∧ t2.ClientSecret = t.ClientSecret ∧ t2.AccessToken = tok ∧
      tok = (carriedToken env t.ClientID t.ClientSecret).getD "" := by
  rcases hpost : env.PostForm TOKEN_API (tokenForm t) with ⟨resp, err⟩
  have hpost2 := hpost
  rw [tokenForm_credentials] at hpost2
  simp only [RefreshAccessToken, hpost] at h
  simp only [carriedToken, hpost2]
  cases resp with
  | none => simp at h
  | some resp =>
    cases hb : resp.Body with
    | error e => simp [hb] at h
    | ok body =>
      cases hj : env.UnmarshalMap body with
      | error e => simp [hb, hj] at h
      | ok m =>
        simp only [hb, hj, assertString_index, Prod.mk.injEq, Outcome.returned.injEq] at h
        obtain ⟨h1, h2, -⟩ := h
        subst h2
        refine ⟨rfl, rfl, h1, ?_⟩
        rw [← h1]
        unfold specToken
        cases hl : List.lookup "access_token" m with
        | none => simp [hb, hj, hl]
        | some v => cases v <;> simp [hb, hj, hl]

theorem refreshSeq_returned (envs : List Env) :
    ∀ (t t2 : TwitchClient) (tr : List Event),
      (refreshSeq envs t tr).1 = Outcome.returned t2 →
      t2.ClientID = t.ClientID ∧ t2.ClientSecret = t.ClientSecret ∧
        t2.AccessToken =
          match envs.getLast? with
          | none => t.AccessToken
          | some env => (carriedToken env t.ClientID t.ClientSecret).getD "" := by
  induction envs with
  | nil =>
    intro t t2 tr h
    simp only [refreshSeq, Outcome.returned.injEq] at h
    subst h
    simp
  | cons env rest ih =>
    intro t t2 tr h
    rcases hr : RefreshAccessToken env t tr with ⟨o, t1, tr1⟩
    cases o with
    | exited c => simp [refreshSeq, hr] at h
    | panicked => simp [refreshSeq, hr] at h
    | returned tok =>
      simp only [refreshSeq, hr] at h
      obtain ⟨hid, hsec, htok, hcar⟩ := refresh_returned env t t1 tr tr1 tok hr
      obtain ⟨h1, h2, h3⟩ := ih t1 t2 tr1 h
      refine ⟨h1.trans hid, h2.trans hsec, ?_⟩
      rw [h3]
      cases rest with
      | nil => simp [htok, hcar]
      | cons env2 rest2 =>
        simp only [List.getLast?_cons_cons]
        cases hl : (env2 :: rest2).getLast? with
        | none => simp at hl
        | some e => simp [hid, hsec]

theorem foldl_append_singleton (l : List String) :
    ∀ init : List String,
      l.foldl (fun (acc : List String) quality => acc ++ [quality]) init = init ++ l := by
  induction l with
  | nil => intro init; simp
  | cons x rest ih => intro init; simp [ih]

/-! ## Claims on the poll loop -/

/-- C1: for every finite sequence of ticks fed to the loop of `main`, started
with `isRecording = false`, the number of `StartRecording` calls issued equals
the number of offline-to-live transitions of the `IsLive` observations and the
number of `StopRecording` calls equals the number of live-to-offline
transitions; on the observations offline, offline, live, live, live, offline
the only calls are one `StartRecording` on the 3rd tick and one
`StopRecording` on the 6th. -/
theorem C1_calls_match_transitions (config : Config) (downloadFolder : String)
    (ticks : List Tick) :
    startCount (mainLoop config downloadFolder ticks).2 =
        risingEdges false (ticks.map Tick.isLive) ∧
      stopCount (mainLoop config downloadFolder ticks).2 =
        fallingEdges false (ticks.map Tick.isLive) ∧
      ∀ s1 s2 s3 s4 s5 s6 : Bool,
        kinds (mainLoop config downloadFolder
          [⟨false, s1⟩, ⟨false, s2⟩, ⟨true, s3⟩, ⟨true, s4⟩, ⟨true, s5⟩, ⟨false, s6⟩]).2 =
          [none, none, some true, none, none, some false] := by
  refine ⟨pollLoop_starts config downloadFolder ticks false,
    pollLoop_stops config downloadFolder ticks false, ?_⟩
  intro s1 s2 s3 s4 s5 s6
  simp [mainLoop, pollLoop, pollTick, kinds, Action.isStart]

/-- C10: after every tick of the loop of `main` (that is, for every prefix
of the ticks), the number of `StartRecording` calls issued so far is the number
of `StopRecording` calls issued so far plus 1 when `isRecording` is true and
plus 0 when it is false; `isRecording` equals the observation of the tick just
processed (`false` before the first tick); and in the record of calls no
`StartRecording` is issued while a start is outstanding and no `StopRecording`
while none is. -/
theorem C10_recording_flag_invariant (config : Config) (downloadFolder : String)
    (ticks : List Tick) (n : Nat) :
    startCount (mainLoop config downloadFolder (ticks.take n)).2 =
        stopCount (mainLoop config downloadFolder (ticks.take n)).2 +
          (if (mainLoop config downloadFolder (ticks.take n)).1 then 1 else 0) ∧
      (mainLoop config downloadFolder (ticks.take n)).1 =
        (((ticks.take n).map Tick.isLive).getLast?).getD false ∧
      Alternates false (mainLoop config downloadFolder (ticks.take n)).2 := by
  refine ⟨?_, pollLoop_last config downloadFolder (ticks.take n) false,
    pollLoop_alternates config downloadFolder (ticks.take n) false⟩
  have h := pollLoop_balance config downloadFolder (ticks.take n) false
  simpa [mainLoop] using h

/-- C7 as stated fails: on a tick with the channel live, `isRecording` false
and a failing spawn, the loop sets `isRecording` to true, and on the next tick,
the channel still live, it issues no `StartRecording`. -/
theorem C7_flag_set_despite_failed_spawn :
    (pollTick demoConfig "rec" false ⟨true, false⟩).1 = true ∧
      kinds (mainLoop demoConfig "rec" [⟨true, false⟩, ⟨true, true⟩]).2 =
        [some true, none] := by
  decide

/-- C7, amended: on every tick on which `IsLive` reports live while
`isRecording` is false, the loop issues `StartRecording` and sets `isRecording`
to true whatever the outcome of the spawn, so that on the next tick, if the
channel is still reported live, no recorder call is issued. -/
theorem C7_flag_set_whatever_the_spawn (config : Config) (downloadFolder : String)
    (tk next : Tick) (hlive : tk.isLive = true) (hnext : next.isLive = true) :
    pollTick config downloadFolder false tk =
        (true, some (Action.StartRecording config.Streamer downloadFolder
          config.PreferredQuality tk.spawnOk)) ∧
      (pollTick config downloadFolder (pollTick config downloadFolder false tk).1 next).2 =
        none := by
  simp [pollTick, hlive, hnext]

/-- C7, amended, at a concrete input: a failed spawn followed by a
live tick. -/
theorem C7_flag_set_whatever_the_spawn_witness :
    pollTick demoConfig "rec" false ⟨true, false⟩ =
        (true, some (Action.StartRecording demoConfig.Streamer "rec"
          demoConfig.PreferredQuality false)) ∧
      (pollTick demoConfig "rec" (pollTick demoConfig "rec" false ⟨true, false⟩).1
        ⟨true, true⟩).2 = none :=
  C7_flag_set_whatever_the_spawn demoConfig "rec" ⟨true, false⟩ ⟨true, true⟩ rfl rfl

/-! ## Claims on the client -/

/-- C2: when the listing request is answered with a status other than 401,
`IsLive` returns true if and only if the body is read and decodes to an object
whose `data` field is an array with at least one element; it returns false
when the body does not decode, when `data` is missing, when `data` is not an
array and when `data` is the empty array. -/
theorem C2_live_iff_data_nonempty (env : Env) (t : TwitchClient) (name : String)
    (tr : List Event) (resp : Response)
    (hreq : env.NewRequestErr "GET" (STREAM_API ++ name) = none)
    (hdo : env.Do (listingRequest env t name) = Except.ok resp)
    (hstatus : resp.StatusCode ≠ StatusUnauthorized) :
    ((IsLive env t name tr).1 = Outcome.returned true ↔
        ∃ body m, resp.Body = Except.ok body ∧ env.UnmarshalMap body = Except.ok m ∧
          dataNonEmpty m) ∧
      ((IsLive env t name tr).1 = Outcome.returned false ↔
        ¬ ∃ body m, resp.Body = Except.ok body ∧ env.UnmarshalMap body = Except.ok m ∧
          dataNonEmpty m) ∧
      (∀ body e, resp.Body = Except.ok body → env.UnmarshalMap body = Except.error e →
        (IsLive env t name tr).1 = Outcome.returned false) ∧
      (∀ body m, resp.Body = Except.ok body → env.UnmarshalMap body = Except.ok m →
        m.lookup "data" = none → (IsLive env t name tr).1 = Outcome.returned false) ∧
      (∀ body m v, resp.Body = Except.ok body → env.UnmarshalMap body = Except.ok m →
        m.lookup "data" = some v → (∀ xs, v ≠ JValue.array xs) →
        (IsLive env t name tr).1 = Outcome.returned false) ∧
      (∀ body m, resp.Body = Except.ok body → env.UnmarshalMap body = Except.ok m →
        m.lookup "data" = some (JValue.array []) →
        (IsLive env t name tr).1 = Outcome.returned false) := by
  have hL := isLive_not401 env t name tr resp hreq hdo hstatus
  have htrue : (IsLive env t name tr).1 = Outcome.returned true ↔
      ∃ body m, resp.Body = Except.ok body ∧ env.UnmarshalMap body = Except.ok m ∧
        dataNonEmpty m := by
    rw [hL]
    cases hb : resp.Body with
    | error e => simp
    | ok body =>
      cases hj : env.UnmarshalMap body with
      | error e => simp [hj]
      | ok m =>
        have ha := assertArray_index m
        simp only [Except.ok.injEq, exists_and_left, exists_eq_left', hj, Outcome.returned.injEq,
          Bool.and_eq_true, decide_eq_true_eq]
        exact ha
  have hfalse : (IsLive env t name tr).1 = Outcome.returned false ↔
      ¬ ∃ body m, resp.Body = Except.ok body ∧ env.UnmarshalMap body = Except.ok m ∧
        dataNonEmpty m := by
    rw [← htrue, hL]
    cases hb : resp.Body with
    | error e => simp
    | ok body =>
      cases hj : env.UnmarshalMap body with
      | error e => simp [hj]
      | ok m => simp [hj]
  refine ⟨htrue, hfalse, ?_, ?_, ?_, ?_⟩
  · intro body e hb hj
    rw [hfalse]
    rintro ⟨body2, m, hb2, hj2, -⟩
    rw [hb] at hb2
    cases hb2
    rw [hj] at hj2
    cases hj2
  · intro body m hb hj hl
    rw [hfalse]
    rintro ⟨body2, m2, hb2, hj2, x, xs, hx⟩
    rw [hb] at hb2
    cases hb2
    rw [hj] at hj2
    cases hj2
    rw [hl] at hx
    cases hx
  · intro body m v hb hj hl hv
    rw [hfalse]
    rintro ⟨body2, m2, hb2, hj2, x, xs, hx⟩
    rw [hb] at hb2
    cases hb2
    rw [hj] at hj2
    cases hj2
    rw [hl] at hx
    cases hx
    exact hv _ rfl
  · intro body m hb hj hl
    rw [hfalse]
    rintro ⟨body2, m2, hb2, hj2, x, xs, hx⟩
    rw [hb] at hb2
    cases hb2
    rw [hj] at hj2
    cases hj2
    rw [hl] at hx
    cases hx

/-- C2 at a concrete input: a 200 answer with the body
`{"data":[{"id":"1"}]}` makes `IsLive` return true. -/
theorem C2_live_iff_data_nonempty_witness :
    (demoEnv bodyDataOne "" "").NewRequestErr "GET" (STREAM_API ++ "chan") = none ∧
      (demoEnv bodyDataOne "" "").Do (listingRequest (demoEnv bodyDataOne "" "") demoClient "chan") =
        Except.ok { StatusCode := 200, Body := Except.ok bodyDataOne } ∧
      (IsLive (demoEnv bodyDataOne "" "") demoClient "chan" []).1 = Outcome.returned true :=
  ⟨rfl, rfl,
    (C2_live_iff_data_nonempty (demoEnv bodyDataOne "" "") demoClient "chan" []
      { StatusCode := 200, Body := Except.ok bodyDataOne } rfl rfl (by decide)).1.mpr
      ⟨bodyDataOne, [("data", JValue.array [JValue.object [("id", JValue.string "1")]])],
        rfl, rfl, _, _, rfl⟩⟩

/-- C3 as stated fails: the listing request is answered with 401, the token
response does not decode, and `IsLive` does not return false: the process exits
inside `RefreshAccessToken`. -/
theorem C3_unauthorized_may_not_return :
    ((demoEnv401 "" "nonsense").Do
        (listingRequest (demoEnv401 "" "nonsense") demoClient "chan")).toOption.map
          Response.StatusCode = some 401 ∧
      (IsLive (demoEnv401 "" "nonsense") demoClient "chan" []).1 = Outcome.exited 1 ∧
      (IsLive (demoEnv401 "" "nonsense") demoClient "chan" []).1 ≠ Outcome.returned false := by
  decide

/-- C3, amended: when the listing request is answered with 401, whatever the
body of that answer, the call sends the listing request once and invokes
`RefreshAccessToken` once; if it returns, it returns false; and it does return
false when the token response is read and decodes. -/
theorem C3_unauthorized_refreshes_once (env : Env) (t : TwitchClient) (name : String)
    (tr : List Event) (resp : Response)
    (hreq : env.NewRequestErr "GET" (STREAM_API ++ name) = none)
    (hdo : env.Do (listingRequest env t name) = Except.ok resp)
    (h401 : resp.StatusCode = StatusUnauthorized) :
    listingRequests (IsLive env t name tr).2.2 = listingRequests tr + 1 ∧
      refreshCalls (IsLive env t name tr).2.2 = refreshCalls tr + 1 ∧
      (∀ b, (IsLive env t name tr).1 = Outcome.returned b → b = false) ∧
      (∀ tresp terr body m, env.PostForm TOKEN_API (tokenForm t) = (some tresp, terr) →
        tresp.Body = Except.ok body → env.UnmarshalMap body = Except.ok m →
        (IsLive env t name tr).1 = Outcome.returned false) := by
  rw [isLive_401 env t name tr resp hreq hdo h401]
  have htr := refresh_trace env t
    (tr ++ [Event.httpDo (listingRequest env t name)] ++ [Event.log "Status 401: Unauthorized"])
  refine ⟨?_, ?_, ?_, ?_⟩
  · rcases h : RefreshAccessToken env t (tr ++ [Event.httpDo (listingRequest env t name)] ++
      [Event.log "Status 401: Unauthorized"]) with ⟨o, t2, tr2⟩
    rw [h] at htr
    cases o <;> simpa [listingRequests_append, listingRequests] using htr.2
  · rcases h : RefreshAccessToken env t (tr ++ [Event.httpDo (listingRequest env t name)] ++
      [Event.log "Status 401: Unauthorized"]) with ⟨o, t2, tr2⟩
    rw [h] at htr
    cases o <;> simpa [refreshCalls_append, refreshCalls] using htr.1
  · rcases h : RefreshAccessToken env t (tr ++ [Event.httpDo (listingRequest env t name)] ++
      [Event.log "Status 401: Unauthorized"]) with ⟨o, t2, tr2⟩
    intro b hb
    cases o <;> simp at hb
    exact hb
  · intro tresp terr body m hpost hbody hjson
    have hr := (refresh_returns env t (tr ++ [Event.httpDo (listingRequest env t name)] ++
      [Event.log "Status 401: Unauthorized"]) tresp terr body m hpost hbody hjson).1
    rcases h : RefreshAccessToken env t (tr ++ [Event.httpDo (listingRequest env t name)] ++
      [Event.log "Status 401: Unauthorized"]) with ⟨o, t2, tr2⟩
    rw [h] at hr
    simp only at hr
    rw [hr]

/-- C3, amended, at a concrete input: a 401 answer in a world whose
token endpoint delivers `{"access_token":"abc123"}`. -/
theorem C3_unauthorized_refreshes_once_witness :
    (demoEnv401 bodyDataOne bodyToken).NewRequestErr "GET" (STREAM_API ++ "chan") = none ∧
      (demoEnv401 bodyDataOne bodyToken).Do
          (listingRequest (demoEnv401 bodyDataOne bodyToken) demoClient "chan") =
        Except.ok { StatusCode := 401, Body := Except.ok bodyDataOne } ∧
      listingRequests (IsLive (demoEnv401 bodyDataOne bodyToken) demoClient "chan" []).2.2 = 1 ∧
      refreshCalls (IsLive (demoEnv401 bodyDataOne bodyToken) demoClient "chan" []).2.2 = 1 ∧
      (IsLive (demoEnv401 bodyDataOne bodyToken) demoClient "chan" []).1 =
        Outcome.returned false :=
  have h := C3_unauthorized_refreshes_once (demoEnv401 bodyDataOne bodyToken) demoClient "chan" []
    { StatusCode := 401, Body := Except.ok bodyDataOne } rfl rfl rfl
  ⟨rfl, rfl, h.1, h.2.1,
    h.2.2.2 { StatusCode := 200, Body := Except.ok bodyToken } none bodyToken
      [("access_token", JValue.string "abc123")] rfl rfl rfl⟩

/-- C4: when the token response is read and decodes, `RefreshAccessToken`
returns the value of the `access_token` field if that field is present and is a
string, and the empty string otherwise; the client's `AccessToken` afterwards is
the returned value, its other fields are unchanged. -/
theorem C4_refresh_stores_access_token (env : Env) (t : TwitchClient) (tr : List Event)
    (tresp : Response) (terr : Option String) (body : String) (m : GoMap JValue)
    (hpost : env.PostForm TOKEN_API (tokenForm t) = (some tresp, terr))
    (hbody : tresp.Body = Except.ok body) (hjson : env.UnmarshalMap body = Except.ok m) :
    (RefreshAccessToken env t tr).1 = Outcome.returned (specToken m) ∧
      (RefreshAccessToken env t tr).2.1.AccessToken = specToken m ∧
      (RefreshAccessToken env t tr).2.1.ClientID = t.ClientID ∧
      (RefreshAccessToken env t tr).2.1.ClientSecret = t.ClientSecret := by
  have h := refresh_returns env t tr tresp terr body m hpost hbody hjson
  rw [h.2]
  exact ⟨h.1, rfl, rfl, rfl⟩

/-- C4 at a concrete input: the token body
`{"access_token":"abc123"}` gives the token `abc123`. -/
theorem C4_refresh_stores_access_token_witness :
    (demoEnv "" bodyToken "").PostForm TOKEN_API (tokenForm demoClient) =
        (some { StatusCode := 200, Body := Except.ok bodyToken }, none) ∧
      (demoEnv "" bodyToken "").UnmarshalMap bodyToken =
        Except.ok [("access_token", JValue.string "abc123")] ∧
      (RefreshAccessToken (demoEnv "" bodyToken "") demoClient []).1 = Outcome.returned "abc123" ∧
      (RefreshAccessToken (demoEnv "" bodyToken "") demoClient []).2.1.AccessToken = "abc123" :=
  have h := C4_refresh_stores_access_token (demoEnv "" bodyToken "") demoClient []
    { StatusCode := 200, Body := Except.ok bodyToken } none bodyToken
    [("access_token", JValue.string "abc123")] rfl rfl rfl
  ⟨rfl, rfl, h.1, h.2.1⟩

/-- C8 as stated fails: during a reactive refresh whose token response cannot
be read, the process exits and `IsLive` does not return false to the loop. -/
theorem C8_reactive_refresh_failure_exits :
    (demoEnv401ReadFails.Do (listingRequest demoEnv401ReadFails demoClient "chan")).toOption.map
        Response.StatusCode = some 401 ∧
      ((demoEnv401ReadFails.PostForm TOKEN_API (tokenForm demoClient)).1.map
        (fun r => r.Body.toOption)) = some none ∧
      (IsLive demoEnv401ReadFails demoClient "chan" []).1 = Outcome.exited 1 ∧
      (IsLive demoEnv401ReadFails demoClient "chan" []).1 ≠ Outcome.returned false := by
  decide

/-- C8, amended: when `RefreshAccessToken` runs as a reactive refresh (the
listing request was answered with 401) and the body of the token response
cannot be read or cannot be decoded as JSON, the call logs and the process
exits with status 1 (`log.Fatal`): `IsLive` does not return; the client's
`AccessToken` still has its previous value. -/
theorem C8_reactive_refresh_failure_is_fatal (env : Env) (t : TwitchClient) (name : String)
    (tr : List Event) (resp tresp : Response) (terr : Option String)
    (hreq : env.NewRequestErr "GET" (STREAM_API ++ name) = none)
    (hdo : env.Do (listingRequest env t name) = Except.ok resp)
    (h401 : resp.StatusCode = StatusUnauthorized)
    (hpost : env.PostForm TOKEN_API (tokenForm t) = (some tresp, terr))
    (hfail : (∃ e, tresp.Body = Except.error e) ∨
      (∃ body e, tresp.Body = Except.ok body ∧ env.UnmarshalMap body = Except.error e)) :
    (IsLive env t name tr).1 = Outcome.exited 1 ∧
      (IsLive env t name tr).2.1.AccessToken = t.AccessToken := by
  rw [isLive_401 env t name tr resp hreq hdo h401]
  rcases hfail with ⟨e, he⟩ | ⟨body, e, hb, he⟩
  · simp [RefreshAccessToken, hpost, he]
  · simp [RefreshAccessToken, hpost, hb, he]

/-- C8, amended, at a concrete input: a 401 answer in a world
whose token response does not decode. -/
theorem C8_reactive_refresh_failure_is_fatal_witness :
    (demoEnv401 "" "nonsense").NewRequestErr "GET" (STREAM_API ++ "chan") = none ∧
      (demoEnv401 "" "nonsense").PostForm TOKEN_API (tokenForm demoClient) =
        (some { StatusCode := 200, Body := Except.ok "nonsense" }, none) ∧
      (demoEnv401 "" "nonsense").UnmarshalMap "nonsense" = Except.error "invalid character" ∧
      (IsLive (demoEnv401 "" "nonsense") demoClient "chan" []).1 = Outcome.exited 1 ∧
      (IsLive (demoEnv401 "" "nonsense") demoClient "chan" []).2.1.AccessToken = "old" :=
  have h := C8_reactive_refresh_failure_is_fatal (demoEnv401 "" "nonsense") demoClient "chan" []
    { StatusCode := 401, Body := Except.ok "" }
    { StatusCode := 200, Body := Except.ok "nonsense" } none rfl rfl rfl rfl
    (Or.inr ⟨"nonsense", "invalid character", rfl, rfl⟩)
  ⟨rfl, rfl, rfl, h.1, h.2⟩


/-- C5 as stated fails: after `NewTwitch` with the token response
`{"access_token":"abc123"}` and one later refresh with the token response `{}`,
the `Authorization` header is `Bearer ` followed by nothing, while the most
recent refresh whose response carried a string `access_token` delivered
`abc123`. -/
theorem C5_header_drops_latest_carried_token :
    latestCarried [demoEnv "" bodyToken "", demoEnv "" bodyNoToken ""] "id" "secret" =
        some "abc123" ∧
      (session (demoEnv "" bodyToken "") [demoEnv "" bodyNoToken ""] "id" "secret").get?.map
          generateHeaders =
        some [("Client-ID", "id"), ("Authorization", "Bearer ")] := by
  decide

/-- C5, amended: for every client state reached by `NewTwitch` followed by any
sequence of later `RefreshAccessToken` calls, `generateHeaders` returns the
mapping with exactly the two keys `Client-ID` and `Authorization`, where
`Client-ID` maps to the client's `ClientID` and `Authorization` maps to
`Bearer ` followed by the token stored by the most recent refresh: the string
`access_token` of its response, or the empty string when that response carried
none. -/
theorem C5_headers_follow_last_refresh (env0 : Env) (envs : List Env)
    (clientID clientSecret : String) (t : TwitchClient)
    (h : session env0 envs clientID clientSecret = Outcome.returned t) :
    t.ClientID = clientID ∧
      generateHeaders t =
        [("Client-ID", clientID),
          ("Authorization", "Bearer " ++
            (carriedToken ((env0 :: envs).getLast (List.cons_ne_nil env0 envs))
              clientID clientSecret).getD "")] := by
  unfold session NewTwitch at h
  rcases hr : RefreshAccessToken env0
    { ClientID := clientID, ClientSecret := clientSecret, AccessToken := "" } [] with ⟨o, t1, tr1⟩
  cases o with
  | exited c => simp [hr] at h
  | panicked => simp [hr] at h
  | returned tok =>
    simp only [hr] at h
    obtain ⟨hid, hsec, htok, hcar⟩ := refresh_returned env0 _ t1 [] tr1 tok hr
    obtain ⟨h1, h2, h3⟩ := refreshSeq_returned envs _ t tr1 h
    simp only at h1 h2 h3 hid hsec hcar
    have hID : t.ClientID = clientID := h1.trans hid
    refine ⟨hID, ?_⟩
    unfold generateHeaders
    rw [hID, h3]
    cases envs with
    | nil => simp [hcar]
    | cons env2 rest2 =>
      cases hl : (env2 :: rest2).getLast? with
      | none => simp at hl
      | some e =>
        have he : (env0 :: env2 :: rest2).getLast (List.cons_ne_nil env0 (env2 :: rest2)) = e := by
          rw [List.getLast_cons (List.cons_ne_nil env2 rest2)]
          rw [List.getLast?_eq_getLast _ (List.cons_ne_nil env2 rest2)] at hl
          exact Option.some.inj hl
        simp [he, hid, hsec]

/-- C5, amended, at a concrete input: `NewTwitch` with the token
response `{}`, then a refresh with the token response
`{"access_token":"abc123"}`. -/
theorem C5_headers_follow_last_refresh_witness :
    session (demoEnv "" bodyNoToken "") [demoEnv "" bodyToken ""] "id" "secret" =
        Outcome.returned { ClientID := "id", ClientSecret := "secret", AccessToken := "abc123" } ∧
      generateHeaders { ClientID := "id", ClientSecret := "secret", AccessToken := "abc123" } =
        [("Client-ID", "id"),
          ("Authorization", "Bearer " ++
            (carriedToken
              ((demoEnv "" bodyNoToken "" :: [demoEnv "" bodyToken ""]).getLast
                (List.cons_ne_nil _ _)) "id" "secret").getD "")] :=
  ⟨rfl,
    (C5_headers_follow_last_refresh (demoEnv "" bodyNoToken "") [demoEnv "" bodyToken ""]
      "id" "secret" { ClientID := "id", ClientSecret := "secret", AccessToken := "abc123" }
      rfl).2⟩

/-- C6: when the capture tool exits zero and its output parses as a manifest,
`GetAvailableStreams` returns, with a nil error, a list that is a rearrangement
of the keys of the manifest's `streams` mapping: it contains each key exactly
once and nothing else; a manifest without `streams` entries gives the empty
list. -/
theorem C6_qualities_are_manifest_keys (env : Env) (name : String) (tr : List Event)
    (output : String) (ts : TwitchStreams)
    (hout : env.Output (streamlinkCommand name) = (output, none))
    (hparse : env.UnmarshalStreams output = Except.ok ts)
    (hkeys : (ts.Streams.map Prod.fst).Nodup)
    (horder : (env.RangeOrder (ts.Streams.map Prod.fst)).Perm (ts.Streams.map Prod.fst)) :
    ∃ qs, (GetAvailableStreams env name tr).1 = Outcome.returned (qs, none) ∧
      qs.Perm (ts.Streams.map Prod.fst) ∧
      (∀ q, qs.count q = if q ∈ ts.Streams.map Prod.fst then 1 else 0) ∧
      (ts.Streams = [] → qs = []) := by
  refine ⟨env.RangeOrder (ts.Streams.map Prod.fst), ?_, horder, ?_, ?_⟩
  · simp [GetAvailableStreams, NewTwitchStreams, hout, hparse, foldl_append_singleton]
  · intro q
    rw [horder.count_eq, List.count_eq_of_nodup hkeys]
  · intro hnil
    rw [hnil] at horder ⊢
    simpa using horder

/-- C6 at a concrete input: the manifest
`{"streams":{"best":{},"720p":{}}}` gives a rearrangement of `best`, `720p`. -/
theorem C6_qualities_are_manifest_keys_witness :
    (demoEnv "" "" bodyManifest).Output (streamlinkCommand "chan") = (bodyManifest, none) ∧
      (GetAvailableStreams (demoEnv "" "" bodyManifest) "chan" []).1 =
        Outcome.returned (["720p", "best"], none) ∧
      ∃ qs, (GetAvailableStreams (demoEnv "" "" bodyManifest) "chan" []).1 =
          Outcome.returned (qs, none) ∧
        qs.Perm ["best", "720p"] :=
  have h := C6_qualities_are_manifest_keys (demoEnv "" "" bodyManifest) "chan" [] bodyManifest
    { Plugin := ""
      Metadata := { ID := "", Author := "", Category := "", Title := "" }
      Streams :=
        [("best", { Type_ := "", URL := "", Headers := [], Master := "" }),
         ("720p", { Type_ := "", URL := "", Headers := [], Master := "" })] }
    rfl rfl (by decide) (by decide)
  ⟨rfl, by decide, h.imp (fun _ hq => ⟨hq.1, hq.2.1⟩)⟩

/-- C9, at the failing input: when the capture tool exits non-zero,
`GetAvailableStreams` does not return a nil list with a non-nil error: the
process exits with status 1 (`log.Fatal`); when the tool exits zero with output
that does not parse, it does return the nil list with a non-nil error. -/
theorem C9_tool_failure_exits :
    (demoEnvToolFails.Output (streamlinkCommand "chan")).2 = some "exit status 1" ∧
      (GetAvailableStreams demoEnvToolFails "chan" []).1 = Outcome.exited 1 ∧
      (GetAvailableStreams (demoEnv "" "" "nonsense") "chan" []).1 =
        Outcome.returned ([], some "invalid character") := by
  decide

end TwitchRecorder
